import Mathlib

/-!
Verification of the OpenBB backends-for-openbb examples.

This file gives a shallow embedding of the Python route handlers and the
widget-registration decorator that the examples share, and proves the
behavioural claims about them.  Python values reachable from the handlers
(JSON scalars, lists, dicts) are modelled by the mutual inductive
`PyVal`/`PyList`/`PyDict`; dictionaries are insertion-ordered association
structures, exactly as CPython dicts behave.  Fallible Python code
(raising `TypeError`, `KeyError`, `UnboundLocalError`) is modelled with
`Except String`.
-/

mutual

inductive PyVal where
  | vNone : PyVal
  | vBool : Bool → PyVal
  | vInt : Int → PyVal
  | vStr : String → PyVal
  | vList : PyList → PyVal
  | vDict : PyDict → PyVal
  deriving DecidableEq, Repr

inductive PyList where
  | nil : PyList
  | cons : PyVal → PyList → PyList
  deriving DecidableEq, Repr

inductive PyDict where
  | nil : PyDict
  | cons : String → PyVal → PyDict → PyDict
  deriving DecidableEq, Repr

end

/-- Build a `PyList` from a Lean list (notation convenience for literals). -/
def PyList.ofList : List PyVal → PyList
  | [] => .nil
  | v :: rest => .cons v (PyList.ofList rest)

/-- Build a `PyDict` from a Lean association list (notation convenience). -/
def PyDict.ofList : List (String × PyVal) → PyDict
  | [] => .nil
  | (k, v) :: rest => .cons k v (PyDict.ofList rest)

def PyList.isEmpty : PyList → Bool
  | .nil => true
  | .cons _ _ => false

def PyDict.isEmpty : PyDict → Bool
  | .nil => true
  | .cons _ _ _ => false

/-- Python truthiness (`if x:`): `None`, `False`, `0`, `""`, `[]`, `{}` are
falsy, everything else is truthy. -/
def truthy : PyVal → Bool
  | .vNone => false
  | .vBool b => b
  | .vInt n => n != 0
  | .vStr s => s != ""
  | .vList xs => !xs.isEmpty
  | .vDict d => !d.isEmpty

/-- `d[key]` lookup returning `none` when the key is absent
(first binding wins; a well-formed dict has unique keys). -/
def PyDict.get : PyDict → String → Option PyVal
  | .nil, _ => none
  | .cons k v rest, key => if k = key then some v else rest.get key

/-- Python `d.get(key)`: lookup with default `None`. -/
def PyDict.getD (d : PyDict) (key : String) : PyVal :=
  (d.get key).getD .vNone

/-- Python `key in d`. -/
def PyDict.containsKey (d : PyDict) (key : String) : Bool :=
  (d.get key).isSome

/-- Python `d[key] = v`: replace the value in place if the key exists
(keeping its position), otherwise append a new binding at the end. -/
def PyDict.set : PyDict → String → PyVal → PyDict
  | .nil, key, v => .cons key v .nil
  | .cons k v0 rest, key, v =>
    if k = key then .cons k v rest else .cons k v0 (rest.set key v)

/-- Python `d.pop(key, None)` split in two: the removed value (if any)
and the remaining dict. -/
def PyDict.pop : PyDict → String → Option PyVal × PyDict
  | .nil, _ => (none, .nil)
  | .cons k v rest, key =>
    if k = key then (some v, rest)
    else
      let r := rest.pop key
      (r.1, .cons k v r.2)

/-- Python `d.pop(key, None)` with the `None` default materialised. -/
def PyDict.popD (d : PyDict) (key : String) : PyVal × PyDict :=
  let r := d.pop key
  (r.1.getD .vNone, r.2)

/-- Python `record.update(params)`: assign every binding of `params` into
`record`, left to right. -/
def PyDict.update : PyDict → PyDict → PyDict
  | record, .nil => record
  | record, .cons k v rest => (record.set k v).update rest

/-! ### The widget-registration registry

From `getting-started/reference-backend/main.py` and
`widget-examples/widget-types/omni_widget/main.py` (`register_widget`,
`get_widgets`).  The process-wide `WIDGETS` dict maps the endpoint value
to the widget configuration; we thread it explicitly. -/

/-- The `WIDGETS` registry: an insertion-ordered mapping from the endpoint
value used as dict key to the stored widget configuration. -/
abbrev Widgets := List (PyVal × PyDict)

/-- `WIDGETS[key]` lookup. -/
def wget : Widgets → PyVal → Option PyDict
  | [], _ => none
  | (k, v) :: rest, key => if k = key then some v else wget rest key

/-- `WIDGETS[key] = cfg`: replace in place or append at the end. -/
def wset : Widgets → PyVal → PyDict → Widgets
  | [], key, v => [(key, v)]
  | (k, v0) :: rest, key, v =>
    if k = key then (k, v) :: rest else (k, v0) :: wset rest key v

/-- The state-mutating body of `register_widget`'s inner `decorator`:
`endpoint = widget_config.get("endpoint"); if endpoint:` then default the
`"id"` field to the endpoint when absent and store the configuration in
`WIDGETS[endpoint]`.  Returns the (possibly extended) configuration and
the new registry. -/
def registerWidgetUpdate (widget_config : PyDict) (WIDGETS : Widgets) :
    PyDict × Widgets :=
  let endpoint := widget_config.getD "endpoint"
  if truthy endpoint then
    let widget_config :=
      if widget_config.containsKey "id" then widget_config
      else widget_config.set "id" endpoint
    (widget_config, wset WIDGETS endpoint widget_config)
  else (widget_config, WIDGETS)

/-- `register_widget(widget_config)` applied to a route handler `func`:
the decorator registers the configuration and returns a wrapper
(`sync_wrapper`/`async_wrapper`) that just calls `func` with the same
arguments.  Asynchronous handlers are the instance `β = m γ`, where
`return await func(...)` returns `func`'s action unchanged. -/
def register_widget {α β : Type} (widget_config : PyDict) (func : α → β)
    (WIDGETS : Widgets) : (α → β) × Widgets :=
  ((fun args => func args), (registerWidgetUpdate widget_config WIDGETS).2)

/-- The `GET /widgets.json` handler: returns the `WIDGETS` dict. -/
def get_widgets (WIDGETS : Widgets) : Widgets :=
  WIDGETS

/-! ### The form-submission endpoints

From `advanced_examples/form_parameter/main.py` and
`widget-examples/parameters-types/form_parameter/main.py`
(`form_submit`, `all_forms`).  The global `ALL_FORMS` list is threaded
explicitly; exceptions (`TypeError` from `",".join`, `KeyError` from
`record[...]`) propagate as `Except.error`, which FastAPI turns into a
500 response. -/

/-- `",".join(v)` collects the string items of `v` left to right and
raises `TypeError` at the first non-string item. -/
def strOfElems : PyList → Except String (List String)
  | .nil => .ok []
  | .cons (.vStr s) rest => (strOfElems rest).map (fun ss => s :: ss)
  | .cons _ _ => .error "TypeError: sequence item: expected str instance"

/-- The value transform of the dict comprehension in `form_submit`:
`",".join(v) if isinstance(v, list) else v`. -/
def joinIfList : PyVal → Except String PyVal
  | .vList xs => (strOfElems xs).map (fun ss => .vStr (String.intercalate "," ss))
  | v => .ok v

/-- The appended record
`{k: ",".join(v) if isinstance(v, list) else v for k, v in params.items()}`. -/
def joinedRecord : PyDict → Except String PyDict
  | .nil => .ok .nil
  | .cons k v rest =>
    match joinIfList v with
    | .error e => .error e
    | .ok v2 =>
      match joinedRecord rest with
      | .error e => .error e
      | .ok rest2 => .ok (.cons k v2 rest2)

/-- One iteration of the `update_record` scan:
`if record["client_first_name"] == params.get("client_first_name") and
record["client_last_name"] == params.get("client_last_name"):
record.update(params)`.  The `and` short-circuits, so the last-name key
is only read when the first names agree; a missing key raises `KeyError`. -/
def updateOne (params record : PyDict) : Except String PyDict :=
  match record.get "client_first_name" with
  | none => .error "KeyError: client_first_name"
  | some fn =>
    if fn = params.getD "client_first_name" then
      match record.get "client_last_name" with
      | none => .error "KeyError: client_last_name"
      | some ln =>
        if ln = params.getD "client_last_name" then .ok (record.update params)
        else .ok record
    else .ok record

/-- Effectful map over a list, stopping at the first raised exception
(the `for record in ALL_FORMS:` loop). -/
def mapE {α β : Type} (f : α → Except String β) :
    List α → Except String (List β)
  | [] => .ok []
  | x :: xs =>
    match f x with
    | .error e => .error e
    | .ok y =>
      match mapE f xs with
      | .error e => .error e
      | .ok ys => .ok (y :: ys)

/-- A FastAPI `JSONResponse`: status code (default 200) and JSON content. -/
structure JSONResponse where
  status_code : Nat
  content : PyDict
  deriving DecidableEq, Repr

/-- The 400 response for a missing or falsy client name. -/
def nameError400 : JSONResponse :=
  ⟨400, .cons "error" (.vStr "Client first name and last name are required") .nil⟩

/-- The 400 response for missing or falsy investment types / risk profile. -/
def investError400 : JSONResponse :=
  ⟨400, .cons "error" (.vStr "Investment types and risk profile are required") .nil⟩

/-- The 200 response `{"success": True}`. -/
def success200 : JSONResponse :=
  ⟨200, .cons "success" (.vBool true) .nil⟩

/-- The `POST /form_submit` handler, threading the global `ALL_FORMS`
list: validate the four required fields (400 on failure), pop
`add_record` and append the comma-joined record when it is truthy, pop
`update_record` and merge `params` into every name-matching record when
it is truthy, then reply 200 `{"success": True}`. -/
def form_submit (params : PyDict) (ALL_FORMS : List PyDict) :
    Except String (JSONResponse × List PyDict) :=
  if !(truthy (params.getD "client_first_name") &&
       truthy (params.getD "client_last_name")) then
    .ok (nameError400, ALL_FORMS)
  else if !(truthy (params.getD "investment_types") &&
            truthy (params.getD "risk_profile")) then
    .ok (investError400, ALL_FORMS)
  else
    let ar := params.popD "add_record"
    let params1 := ar.2
    match (if truthy ar.1 then
             match joinedRecord params1 with
             | .error e => .error e
             | .ok nr => .ok (ALL_FORMS ++ [nr])
           else .ok ALL_FORMS : Except String (List PyDict)) with
    | .error e => .error e
    | .ok forms1 =>
      let ur := params1.popD "update_record"
      let params2 := ur.2
      match (if truthy ur.1 then mapE (updateOne params2) forms1
             else .ok forms1 : Except String (List PyDict)) with
      | .error e => .error e
      | .ok forms2 => .ok (success200, forms2)

/-- The placeholder record served when `ALL_FORMS` is empty. -/
def emptyFormRecord : PyDict :=
  PyDict.ofList
    [("client_first_name", .vNone), ("client_last_name", .vNone),
     ("investment_types", .vNone), ("risk_profile", .vNone)]

/-- The `GET /all_forms` handler:
`ALL_FORMS if ALL_FORMS else [<all-null record>]`. -/
def all_forms (ALL_FORMS : List PyDict) : List PyDict :=
  if !ALL_FORMS.isEmpty then ALL_FORMS else [emptyFormRecord]

/-! ### The dependent-dropdown options endpoint

From `getting-started/simple-backend/main.py` (`get_document_options`).
In the Python source `filtered_docs` is assigned only inside
`if category != "all":`, so the `return` raises `UnboundLocalError`
when `category == "all"` — which is the parameter's declared default and
the widget's default dropdown value. -/

/-- The mock document database local to `get_document_options`. -/
def SAMPLE_DOCUMENTS : List PyDict :=
  [PyDict.ofList [("name", .vStr "Q1 Report"), ("category", .vStr "reports")],
   PyDict.ofList [("name", .vStr "Q2 Report"), ("category", .vStr "reports")],
   PyDict.ofList [("name", .vStr "Investor Presentation"), ("category", .vStr "presentations")],
   PyDict.ofList [("name", .vStr "Product Roadmap"), ("category", .vStr "presentations")]]

/-- The `GET /document_options` handler.  `filtered_docs` is bound only
when `category != "all"`; otherwise the final list comprehension reads an
unassigned local and raises `UnboundLocalError`. -/
def get_document_options (category : String) : Except String (List PyDict) :=
  let filtered_docs : Except String (List PyDict) :=
    if category ≠ "all" then
      .ok (SAMPLE_DOCUMENTS.filter (fun doc => doc.getD "category" = .vStr category))
    else
      .error "UnboundLocalError: local variable referenced before assignment"
  match filtered_docs with
  | .error e => .error e
  | .ok docs =>
    .ok (docs.map (fun doc =>
           PyDict.ofList [("label", doc.getD "name"), ("value", doc.getD "name")]))

/-! ### The multi-file viewer endpoints

From `widget-examples/widget-types/multi_file_viewer/main.py`
(`whitepapers`, `get_whitepapers_url`, `get_whitepapers_base64`).  The
filesystem read by the base64 variant is modelled as an oracle
`fs : String → Option (List Nat)` giving the bytes of an existing file
(`none` = `file_path.exists()` is false). -/

/-- The `whitepapers` module-level dict, keyed by filename. -/
def whitepapers : List (String × PyDict) :=
  [("bitcoin.pdf", PyDict.ofList
     [("label", .vStr "Bitcoin"), ("filename", .vStr "bitcoin.pdf"),
      ("url", .vStr "https://openbb-assets.s3.us-east-1.amazonaws.com/testing/bitcoin.pdf"),
      ("category", .vStr "l1")]),
   ("ethereum.pdf", PyDict.ofList
     [("label", .vStr "Ethereum"), ("filename", .vStr "ethereum.pdf"),
      ("url", .vStr "https://openbb-assets.s3.us-east-1.amazonaws.com/testing/ethereum.pdf"),
      ("category", .vStr "l1")]),
   ("chainlink.pdf", PyDict.ofList
     [("label", .vStr "Chainlink"), ("filename", .vStr "chainlink.pdf"),
      ("url", .vStr "https://openbb-assets.s3.us-east-1.amazonaws.com/testing/chainlink.pdf"),
      ("category", .vStr "oracles")]),
   ("solana.pdf", PyDict.ofList
     [("label", .vStr "Solana"), ("filename", .vStr "solana.pdf"),
      ("url", .vStr "https://openbb-assets.s3.us-east-1.amazonaws.com/testing/solana.pdf"),
      ("category", .vStr "l1")])]

/-- `whitepapers.get(name)` on the module-level dict. -/
def wpGet : List (String × PyDict) → String → Option PyDict
  | [], _ => none
  | (k, v) :: rest, key => if k = key then some v else wpGet rest key

/-- `DataFormat(data_type="pdf", filename=...).model_dump()`. -/
def dataFormatDump (filename : PyVal) : PyDict :=
  PyDict.ofList [("data_type", .vStr "pdf"), ("filename", filename)]

/-- `DataUrl(url=..., data_format=...).model_dump()`. -/
def dataUrlDump (url : PyVal) (filename : PyVal) : PyDict :=
  PyDict.ofList [("url", url), ("data_format", .vDict (dataFormatDump filename))]

/-- `DataContent(content=..., data_format=...).model_dump()`. -/
def dataContentDump (content : String) (filename : PyVal) : PyDict :=
  PyDict.ofList [("content", .vStr content), ("data_format", .vDict (dataFormatDump filename))]

/-- `DataError(error_type="not_found", content=...).model_dump()`. -/
def dataErrorDump (content : String) : PyDict :=
  PyDict.ofList [("error_type", .vStr "not_found"), ("content", .vStr content)]

/-- The f-string `f"Whitepaper '{name}' not found"`. -/
def wpNotFoundMsg (name : String) : String :=
  "Whitepaper \x27" ++ name ++ "\x27 not found"

/-- The string value of a `PyVal` (the filenames in `whitepapers` are
always strings). -/
def strVal : PyVal → String
  | .vStr s => s
  | _ => ""

/-- The `GET /whitepapers/url` handler: one result per requested
filename, in request order.  `if whitepaper := whitepapers.get(name):`
tests truthiness of the dict, and `if url := whitepaper.get("url"):`
tests truthiness of the url. -/
def get_whitepapers_url (filename : List String) : List PyDict :=
  filename.map (fun name =>
    match wpGet whitepapers name with
    | some whitepaper =>
      if !whitepaper.isEmpty then
        let file_name_with_extension := whitepaper.getD "filename"
        let url := whitepaper.getD "url"
        if truthy url then dataUrlDump url file_name_with_extension
        else dataErrorDump "URL not found"
      else dataErrorDump (wpNotFoundMsg name)
    | none => dataErrorDump (wpNotFoundMsg name))

/-- One character of the standard base64 alphabet. -/
def b64Char (n : Nat) : Char :=
  (String.toList
    "ABCDEFGHIJKLMNOPQRSTUVWXYZabcdefghijklmnopqrstuvwxyz0123456789+/").getD n 'A'

/-- `base64.b64encode(bytes).decode("utf-8")` over bytes given as `Nat`s
reduced mod 256: RFC 4648 base64 with `=` padding. -/
def base64Encode : List Nat → List Char
  | b1 :: b2 :: b3 :: rest =>
    let x1 := b1 % 256
    let x2 := b2 % 256
    let x3 := b3 % 256
    b64Char (x1 / 4) :: b64Char ((x1 % 4) * 16 + x2 / 16) ::
      b64Char ((x2 % 16) * 4 + x3 / 64) :: b64Char (x3 % 64) :: base64Encode rest
  | [b1, b2] =>
    let x1 := b1 % 256
    let x2 := b2 % 256
    [b64Char (x1 / 4), b64Char ((x1 % 4) * 16 + x2 / 16), b64Char ((x2 % 16) * 4), Char.ofNat 61]
  | [b1] =>
    let x1 := b1 % 256
    [b64Char (x1 / 4), b64Char ((x1 % 4) * 16), Char.ofNat 61, Char.ofNat 61]
  | [] => []

/-- The `GET /whitepapers/base64` handler over a filesystem oracle `fs`:
for each known whitepaper whose file exists, the base64 encoding of the
file's bytes; `DataError` when the file or the whitepaper is unknown. -/
def get_whitepapers_base64 (fs : String → Option (List Nat))
    (filename : List String) : List PyDict :=
  filename.map (fun name =>
    match wpGet whitepapers name with
    | some whitepaper =>
      if !whitepaper.isEmpty then
        let file_name_with_extension := whitepaper.getD "filename"
        match fs (strVal file_name_with_extension) with
        | some bytes =>
          dataContentDump (String.mk (base64Encode bytes)) file_name_with_extension
        | none => dataErrorDump "File not found"
      else dataErrorDump (wpNotFoundMsg name)
    | none => dataErrorDump (wpNotFoundMsg name))

/-- Append two dicts (used to state that `d[key] = v` on a fresh key adds
the binding at the end). -/
def PyDict.append : PyDict → PyDict → PyDict
  | .nil, d => d
  | .cons k v rest, d => .cons k v (rest.append d)

/-- The list of keys of a dict, in insertion order. -/
def PyDict.keys : PyDict → List String
  | .nil => []
  | .cons k _ rest => k :: rest.keys

/-- The conjunction of the two validation guards of `form_submit`. -/
def requiredFieldsOk (params : PyDict) : Bool :=
  (truthy (params.getD "client_first_name") &&
   truthy (params.getD "client_last_name")) &&
  (truthy (params.getD "investment_types") &&
   truthy (params.getD "risk_profile"))

/-! ### Helper lemmas -/


/-- Structural induction for `PyDict` alone (the mutual recursor has
multiple motives, which the `induction` tactic cannot use directly). -/
theorem PyDict.inductionOn {motive : PyDict → Prop} (base : motive .nil)
    (step : ∀ k v rest, motive rest → motive (.cons k v rest)) :
    ∀ d, motive d
  | .nil => base
  | .cons k v rest => step k v rest (PyDict.inductionOn base step rest)

theorem wget_wset_self (w : Widgets) (key : PyVal) (v : PyDict) :
    wget (wset w key v) key = some v := by
  induction w with
  | nil => simp [wget, wset]
  | cons hd tl ih =>
    obtain ⟨k0, v0⟩ := hd
    by_cases h : k0 = key
    · subst h
      simp [wget, wset]
    · simp [wget, wset, h, ih]

theorem wget_wset_ne (w : Widgets) (key k : PyVal) (v : PyDict)
    (h : k ≠ key) : wget (wset w key v) k = wget w k := by
  induction w with
  | nil => simp [wget, wset, Ne.symm h]
  | cons hd tl ih =>
    obtain ⟨k0, v0⟩ := hd
    by_cases h0 : k0 = key
    · subst h0
      simp [wget, wset, Ne.symm h]
    · simp [wget, wset, h0, ih]

theorem PyDict.get_set_ne (d : PyDict) (key k : String) (v : PyVal)
    (h : k ≠ key) : (d.set key v).get k = d.get k := by
  induction d using PyDict.inductionOn with
  | base => simp [PyDict.get, PyDict.set, Ne.symm h]
  | step k0 v0 rest ih =>
    by_cases h0 : k0 = key
    · subst h0
      simp [PyDict.get, PyDict.set, Ne.symm h]
    · simp [PyDict.get, PyDict.set, h0, ih]

theorem PyDict.set_eq_append (d : PyDict) (key : String) (v : PyVal)
    (h : d.containsKey key = false) :
    d.set key v = d.append (.cons key v .nil) := by
  induction d using PyDict.inductionOn with
  | base => simp [PyDict.set, PyDict.append]
  | step k0 v0 rest ih =>
    simp only [PyDict.containsKey, PyDict.get] at h
    by_cases h0 : k0 = key
    · simp [h0] at h
    · simp only [PyDict.containsKey] at ih
      simp only [h0, if_false] at h
      simp [PyDict.set, PyDict.append, h0, ih h]

theorem PyDict.pop_fst (d : PyDict) (key : String) :
    (d.pop key).1 = d.get key := by
  induction d using PyDict.inductionOn with
  | base => simp [PyDict.pop, PyDict.get]
  | step k0 v0 rest ih =>
    by_cases h0 : k0 = key <;> simp [PyDict.pop, PyDict.get, h0, ih]

theorem PyDict.get_pop_ne (d : PyDict) (key k : String) (h : k ≠ key) :
    (d.pop key).2.get k = d.get k := by
  induction d using PyDict.inductionOn with
  | base => simp [PyDict.pop]
  | step k0 v0 rest ih =>
    by_cases h0 : k0 = key
    · subst h0
      simp [PyDict.pop, PyDict.get, Ne.symm h]
    · simp [PyDict.pop, PyDict.get, h0, ih]

theorem mapE_ok_length {α β : Type} (f : α → Except String β)
    (xs : List α) (ys : List β) (h : mapE f xs = .ok ys) :
    ys.length = xs.length := by
  induction xs generalizing ys with
  | nil =>
    simp only [mapE] at h
    cases h
    rfl
  | cons x xs ih =>
    simp only [mapE] at h
    cases hf : f x with
    | error e => rw [hf] at h; cases h
    | ok y =>
      rw [hf] at h
      cases hm : mapE f xs with
      | error e => rw [hm] at h; cases h
      | ok ys0 =>
        rw [hm] at h
        cases h
        simp [ih ys0 hm]

theorem mapE_ok_get {α β : Type} (f : α → Except String β)
    (xs : List α) (ys : List β) (h : mapE f xs = .ok ys)
    (i : Nat) (y : β) (hy : ys[i]? = some y) :
    ∃ x, xs[i]? = some x ∧ f x = .ok y := by
  induction xs generalizing ys i with
  | nil =>
    simp only [mapE] at h
    cases h
    simp at hy
  | cons x xs ih =>
    simp only [mapE] at h
    cases hf : f x with
    | error e => rw [hf] at h; cases h
    | ok y0 =>
      rw [hf] at h
      cases hm : mapE f xs with
      | error e => rw [hm] at h; cases h
      | ok ys0 =>
        rw [hm] at h
        cases h
        cases i with
        | zero =>
          simp only [List.getElem?_cons_zero, Option.some.injEq] at hy
          subst hy
          exact ⟨x, by simp, hf⟩
        | succ j =>
          simp only [List.getElem?_cons_succ] at hy ⊢
          exact ih ys0 hm j hy

theorem joinedRecord_keys (d out : PyDict) (h : joinedRecord d = .ok out) :
    out.keys = d.keys := by
  induction d using PyDict.inductionOn generalizing out with
  | base =>
    simp only [joinedRecord] at h
    cases h
    rfl
  | step k v rest ih =>
    simp only [joinedRecord] at h
    cases hj : joinIfList v with
    | error e => rw [hj] at h; cases h
    | ok v2 =>
      rw [hj] at h
      cases hr : joinedRecord rest with
      | error e => rw [hr] at h; cases h
      | ok rest2 =>
        rw [hr] at h
        cases h
        simp [PyDict.keys, ih rest2 hr]

theorem joinedRecord_get_some (d out : PyDict) (h : joinedRecord d = .ok out)
    (k : String) (v : PyVal) (hv : d.get k = some v) :
    ∃ v2, joinIfList v = .ok v2 ∧ out.get k = some v2 := by
  induction d using PyDict.inductionOn generalizing out with
  | base => simp [PyDict.get] at hv
  | step k0 v0 rest ih =>
    simp only [joinedRecord] at h
    cases hj : joinIfList v0 with
    | error e => rw [hj] at h; cases h
    | ok v2 =>
      rw [hj] at h
      cases hr : joinedRecord rest with
      | error e => rw [hr] at h; cases h
      | ok rest2 =>
        rw [hr] at h
        cases h
        by_cases h0 : k0 = k
        · subst h0
          simp only [PyDict.get, if_pos rfl] at hv ⊢
          cases hv
          exact ⟨v2, hj, rfl⟩
        · simp only [PyDict.get, if_neg h0] at hv ⊢
          exact ih rest2 hr hv

theorem updateOne_match (params record : PyDict)
    (h1 : record.get "client_first_name" = some (params.getD "client_first_name"))
    (h2 : record.get "client_last_name" = some (params.getD "client_last_name")) :
    updateOne params record = .ok (record.update params) := by
  simp [updateOne, h1, h2]

theorem updateOne_ok_nomatch (params record out : PyDict)
    (h : updateOne params record = .ok out)
    (hn : ¬(record.get "client_first_name" = some (params.getD "client_first_name") ∧
            record.get "client_last_name" = some (params.getD "client_last_name"))) :
    out = record := by
  unfold updateOne at h
  split at h
  next => cases h
  next fn hf =>
    split at h
    next he =>
      split at h
      next => cases h
      next ln hl =>
        split at h
        next he2 =>
          cases h
          exact absurd ⟨by rw [hf, he], by rw [hl, he2]⟩ hn
        next =>
          cases h
          rfl
    next he =>
      cases h
      rfl

theorem wpGet_whitepapers_spec (name : String) (wp : PyDict)
    (h : wpGet whitepapers name = some wp) :
    wp.isEmpty = false ∧ truthy (wp.getD "url") = true ∧
    wp.getD "filename" = .vStr name ∧ strVal (wp.getD "filename") = name := by
  simp only [whitepapers, wpGet] at h
  split at h
  next heq =>
    cases h
    subst heq
    refine ⟨rfl, rfl, rfl, rfl⟩
  next =>
    split at h
    next heq =>
      cases h
      subst heq
      refine ⟨rfl, rfl, rfl, rfl⟩
    next =>
      split at h
      next heq =>
        cases h
        subst heq
        refine ⟨rfl, rfl, rfl, rfl⟩
      next =>
        split at h
        next heq =>
          cases h
          subst heq
          refine ⟨rfl, rfl, rfl, rfl⟩
        next => cases h

theorem PyDict.popD_fst (d : PyDict) (key : String) :
    (d.popD key).1 = d.getD key := by
  simp [PyDict.popD, PyDict.getD, PyDict.pop_fst]

theorem PyDict.getD_popD_ne (d : PyDict) (key k : String) (h : k ≠ key) :
    (d.popD key).2.getD k = d.getD k := by
  simp [PyDict.popD, PyDict.getD, PyDict.get_pop_ne _ _ _ h]

theorem form_submit_invalid (params : PyDict) (ALL_FORMS : List PyDict)
    (hreq : requiredFieldsOk params = false) :
    form_submit params ALL_FORMS = .ok (nameError400, ALL_FORMS) ∨
    form_submit params ALL_FORMS = .ok (investError400, ALL_FORMS) := by
  simp only [requiredFieldsOk, Bool.and_eq_false_iff] at hreq
  cases hreq with
  | inl h1 =>
    left
    simp [form_submit, h1]
  | inr h2 =>
    by_cases h1 : (truthy (params.getD "client_first_name") &&
                   truthy (params.getD "client_last_name")) = true
    · right
      simp [form_submit, h1, h2]
    · left
      simp only [Bool.not_eq_true] at h1
      simp [form_submit, h1]

theorem form_submit_ok_success (params : PyDict) (ALL_FORMS : List PyDict)
    (r : JSONResponse) (forms2 : List PyDict)
    (h : form_submit params ALL_FORMS = .ok (r, forms2))
    (hreq : requiredFieldsOk params = true) :
    r = success200 ∧
    ∃ forms1,
      ((truthy (params.getD "add_record") = false ∧ forms1 = ALL_FORMS) ∨
       (truthy (params.getD "add_record") = true ∧
        ∃ nr, joinedRecord (params.popD "add_record").2 = .ok nr ∧
              forms1 = ALL_FORMS ++ [nr])) ∧
      ((truthy (params.getD "update_record") = false ∧ forms2 = forms1) ∨
       (truthy (params.getD "update_record") = true ∧
        mapE (updateOne ((params.popD "add_record").2.popD "update_record").2)
            forms1 = .ok forms2)) := by
  simp only [requiredFieldsOk, Bool.and_eq_true] at hreq
  obtain ⟨⟨ha1, ha2⟩, hb1, hb2⟩ := hreq
  have hur : (params.popD "add_record").2.getD "update_record" =
      params.getD "update_record" :=
    PyDict.getD_popD_ne _ _ _ (by decide)
  simp only [form_submit, ha1, ha2, hb1, hb2, Bool.and_self, Bool.not_true,
    Bool.false_eq_true, if_false, PyDict.popD_fst, hur] at h
  by_cases hadd : truthy (params.getD "add_record") = true
  · cases hj : joinedRecord (params.popD "add_record").2 with
    | error e => simp [hadd, hj] at h
    | ok nr =>
      by_cases hupd : truthy (params.getD "update_record") = true
      · cases hm : mapE (updateOne ((params.popD "add_record").2.popD
            "update_record").2) (ALL_FORMS ++ [nr]) with
        | error e => simp [hadd, hj, hupd, hm] at h
        | ok ys =>
          simp only [hadd, hj, hupd, if_true, eq_self_iff_true, hm,
            Except.ok.injEq, Prod.mk.injEq] at h
          obtain ⟨hr, hf⟩ := h
          subst hr
          subst hf
          exact ⟨rfl, ALL_FORMS ++ [nr], .inr ⟨hadd, nr, rfl, rfl⟩, .inr ⟨hupd, hm⟩⟩
      · simp only [Bool.not_eq_true] at hupd
        simp only [hadd, hj, hupd, if_true, eq_self_iff_true, Bool.false_eq_true,
          if_false, Except.ok.injEq, Prod.mk.injEq] at h
        obtain ⟨hr, hf⟩ := h
        subst hr
        subst hf
        exact ⟨rfl, ALL_FORMS ++ [nr], .inr ⟨hadd, nr, rfl, rfl⟩, .inl ⟨hupd, rfl⟩⟩
  · simp only [Bool.not_eq_true] at hadd
    by_cases hupd : truthy (params.getD "update_record") = true
    · cases hm : mapE (updateOne ((params.popD "add_record").2.popD
          "update_record").2) ALL_FORMS with
      | error e => simp [hadd, hupd, hm] at h
      | ok ys =>
        simp only [hadd, hupd, if_true, eq_self_iff_true, Bool.false_eq_true,
          if_false, hm, Except.ok.injEq, Prod.mk.injEq] at h
        obtain ⟨hr, hf⟩ := h
        subst hr
        subst hf
        exact ⟨rfl, ALL_FORMS, .inl ⟨hadd, rfl⟩, .inr ⟨hupd, hm⟩⟩
    · simp only [Bool.not_eq_true] at hupd
      simp only [hadd, hupd, Bool.false_eq_true, if_false,
        Except.ok.injEq, Prod.mk.injEq] at h
      obtain ⟨hr, hf⟩ := h
      subst hr
      subst hf
      exact ⟨rfl, ALL_FORMS, .inl ⟨hadd, rfl⟩, .inl ⟨hupd, rfl⟩⟩

theorem form_submit_noop (params : PyDict) (ALL_FORMS : List PyDict)
    (hreq : requiredFieldsOk params = true)
    (hadd : truthy (params.getD "add_record") = false)
    (hupd : truthy (params.getD "update_record") = false) :
    form_submit params ALL_FORMS = .ok (success200, ALL_FORMS) := by
  simp only [requiredFieldsOk, Bool.and_eq_true] at hreq
  obtain ⟨⟨ha1, ha2⟩, hb1, hb2⟩ := hreq
  have hur : (params.popD "add_record").2.getD "update_record" =
      params.getD "update_record" :=
    PyDict.getD_popD_ne _ _ _ (by decide)
  simp [form_submit, ha1, ha2, hb1, hb2, PyDict.popD_fst, hur, hadd, hupd]

/-! ### The claims -/

/-- C2: the wrapper returned by `register_widget(widget_config)` applied
to a route handler returns exactly the handler's result on every argument
list — registration is a decorator-like wrapper that does not change the
handler's input-output behaviour.  An asynchronous handler is the
instance where `β` is the type of the handler's action, which
`async_wrapper` returns unchanged (`return await func(*args, **kwargs)`). -/
theorem register_widget_wrapper_id {α β : Type} (widget_config : PyDict)
    (func : α → β) (WIDGETS : Widgets) (args : α) :
    (register_widget widget_config func WIDGETS).1 args = func args := rfl

/-- C1 counterexample: a widget configuration that does contain an
`"endpoint"` key — with the falsy value `""` — is not stored: after
applying the decorator to a handler the registry is still empty, so the
claim "every configuration containing an endpoint key is stored under
that endpoint" fails at this input. -/
theorem register_widget_endpoint_key_not_sufficient :
    (PyDict.ofList [("endpoint", .vStr "")]).containsKey "endpoint" = true ∧
    (register_widget (PyDict.ofList [("endpoint", .vStr "")])
        (fun n : Nat => n) []).2 = [] :=
  ⟨rfl, rfl⟩

/-- C1 (amended): for every widget configuration whose `"endpoint"` key
holds a truthy value, applying the decorator stores that configuration
(with `"id"` defaulted to the endpoint when absent) in the `WIDGETS`
mapping under that endpoint as key, and `get_widgets` returns exactly
the accumulated `WIDGETS` mapping. -/
theorem register_widget_stores {α β : Type} (widget_config : PyDict)
    (func : α → β) (WIDGETS : Widgets)
    (h : truthy (widget_config.getD "endpoint") = true) :
    wget (register_widget widget_config func WIDGETS).2
        (widget_config.getD "endpoint") =
      some (registerWidgetUpdate widget_config WIDGETS).1 ∧
    get_widgets (register_widget widget_config func WIDGETS).2 =
      (register_widget widget_config func WIDGETS).2 := by
  constructor
  · simp only [register_widget, registerWidgetUpdate, h, if_true]
    exact wget_wset_self _ _ _
  · rfl

/-- Witness for C1 (amended) at a concrete configuration and an empty
registry. -/
theorem register_widget_stores_witness :
    wget (register_widget (PyDict.ofList
            [("endpoint", .vStr "e1"), ("name", .vStr "W")])
          (fun n : Nat => n) []).2 (.vStr "e1") =
      some (PyDict.ofList
            [("endpoint", .vStr "e1"), ("name", .vStr "W"), ("id", .vStr "e1")]) ∧
    get_widgets (register_widget (PyDict.ofList
            [("endpoint", .vStr "e1"), ("name", .vStr "W")])
          (fun n : Nat => n) []).2 =
      (register_widget (PyDict.ofList
            [("endpoint", .vStr "e1"), ("name", .vStr "W")])
          (fun n : Nat => n) []).2 :=
  register_widget_stores
    (PyDict.ofList [("endpoint", .vStr "e1"), ("name", .vStr "W")])
    (fun n : Nat => n) [] rfl

/-- C3: the claim is right about the intent and the code is wrong —
`GET /document_options` raises `UnboundLocalError` at `category="all"`,
the parameter's declared default and the widget's declared default
dropdown value, because `filtered_docs` is only assigned inside
`if category != "all":`; the other categories work as documented. -/
theorem get_document_options_default_crashes :
    get_document_options "all" =
      .error "UnboundLocalError: local variable referenced before assignment" ∧
    get_document_options "reports" =
      .ok [PyDict.ofList [("label", .vStr "Q1 Report"), ("value", .vStr "Q1 Report")],
           PyDict.ofList [("label", .vStr "Q2 Report"), ("value", .vStr "Q2 Report")]] ∧
    get_document_options "presentations" =
      .ok [PyDict.ofList [("label", .vStr "Investor Presentation"),
                          ("value", .vStr "Investor Presentation")],
           PyDict.ofList [("label", .vStr "Product Roadmap"),
                          ("value", .vStr "Product Roadmap")]] :=
  ⟨rfl, rfl, rfl⟩

/-- C8: `register_widget` mutates only the `WIDGETS` entry for the
configuration's own endpoint.  Without an `"endpoint"` key (or with a
falsy endpoint value) both the configuration and the registry are left
completely unchanged; with a truthy endpoint, a missing `"id"` is the
only modification to the configuration — appended at the end, equal to
the endpoint — an existing `"id"` and all other fields are untouched,
and every registry entry under a different key is unchanged. -/
theorem register_widget_frame (widget_config : PyDict) (WIDGETS : Widgets) :
    (widget_config.containsKey "endpoint" = false →
       registerWidgetUpdate widget_config WIDGETS = (widget_config, WIDGETS)) ∧
    (truthy (widget_config.getD "endpoint") = false →
       registerWidgetUpdate widget_config WIDGETS = (widget_config, WIDGETS)) ∧
    (truthy (widget_config.getD "endpoint") = true →
       ((widget_config.containsKey "id" = false →
           (registerWidgetUpdate widget_config WIDGETS).1 =
             widget_config.append
               (.cons "id" (widget_config.getD "endpoint") .nil)) ∧
        (widget_config.containsKey "id" = true →
           (registerWidgetUpdate widget_config WIDGETS).1 = widget_config) ∧
        (∀ k, k ≠ "id" →
           (registerWidgetUpdate widget_config WIDGETS).1.get k =
             widget_config.get k) ∧
        (∀ key, key ≠ widget_config.getD "endpoint" →
           wget (registerWidgetUpdate widget_config WIDGETS).2 key =
             wget WIDGETS key))) := by
  refine ⟨?_, ?_, ?_⟩
  · intro h
    cases hg : widget_config.get "endpoint" with
    | none => simp [registerWidgetUpdate, PyDict.getD, hg, truthy]
    | some v => simp [PyDict.containsKey, hg] at h
  · intro h
    simp [registerWidgetUpdate, h]
  · intro h
    refine ⟨?_, ?_, ?_, ?_⟩
    · intro hid
      simp only [registerWidgetUpdate, h, if_true, hid, Bool.false_eq_true, if_false]
      exact PyDict.set_eq_append _ _ _ hid
    · intro hid
      simp [registerWidgetUpdate, h, hid]
    · intro k hk
      by_cases hid : widget_config.containsKey "id" = true
      · simp [registerWidgetUpdate, h, hid]
      · simp only [Bool.not_eq_true] at hid
        simp only [registerWidgetUpdate, h, if_true, hid, Bool.false_eq_true, if_false]
        exact PyDict.get_set_ne _ _ _ _ hk
    · intro key hkey
      by_cases hid : widget_config.containsKey "id" = true
      · simp only [registerWidgetUpdate, h, if_true, hid]
        exact wget_wset_ne _ _ _ _ hkey
      · simp only [Bool.not_eq_true] at hid
        simp only [registerWidgetUpdate, h, if_true, hid, Bool.false_eq_true, if_false]
        exact wget_wset_ne _ _ _ _ hkey

/-- Witness for C8 at a concrete configuration without `"id"` and a
registry holding an unrelated entry. -/
theorem register_widget_frame_witness :
    (registerWidgetUpdate
        (PyDict.ofList [("endpoint", .vStr "e2"), ("name", .vStr "N")])
        [(.vStr "other", PyDict.nil)]).1 =
      (PyDict.ofList [("endpoint", .vStr "e2"), ("name", .vStr "N")]).append
        (.cons "id" ((PyDict.ofList
          [("endpoint", .vStr "e2"), ("name", .vStr "N")]).getD "endpoint") .nil) ∧
    wget (registerWidgetUpdate
        (PyDict.ofList [("endpoint", .vStr "e2"), ("name", .vStr "N")])
        [(.vStr "other", PyDict.nil)]).2 (.vStr "other") =
      wget [(.vStr "other", PyDict.nil)] (.vStr "other") :=
  ⟨((register_widget_frame
      (PyDict.ofList [("endpoint", .vStr "e2"), ("name", .vStr "N")])
      [(.vStr "other", PyDict.nil)]).2.2 rfl).1 rfl,
   ((register_widget_frame
      (PyDict.ofList [("endpoint", .vStr "e2"), ("name", .vStr "N")])
      [(.vStr "other", PyDict.nil)]).2.2 rfl).2.2.2 (.vStr "other") (by decide)⟩

/-- C9: whenever `form_submit` returns a 400 response the stored list is
unchanged, and whenever it is called with all required fields but with
neither a truthy `add_record` nor a truthy `update_record` it replies
200 `{"success": true}` with the stored list also unchanged — the 200
reply does not imply any state change. -/
theorem form_submit_frame (params : PyDict) (ALL_FORMS : List PyDict) :
    (∀ r forms2, form_submit params ALL_FORMS = .ok (r, forms2) →
       r.status_code = 400 → forms2 = ALL_FORMS) ∧
    (requiredFieldsOk params = true →
     truthy (params.getD "add_record") = false →
     truthy (params.getD "update_record") = false →
     form_submit params ALL_FORMS = .ok (success200, ALL_FORMS)) := by
  constructor
  · intro r forms2 h h400
    by_cases hreq : requiredFieldsOk params = true
    · have hr := (form_submit_ok_success params ALL_FORMS r forms2 h hreq).1
      rw [hr] at h400
      simp [success200] at h400
    · simp only [Bool.not_eq_true] at hreq
      cases form_submit_invalid params ALL_FORMS hreq with
      | inl he =>
        have h2 := he.symm.trans h
        simp only [Except.ok.injEq, Prod.mk.injEq] at h2
        exact h2.2.symm
      | inr he =>
        have h2 := he.symm.trans h
        simp only [Except.ok.injEq, Prod.mk.injEq] at h2
        exact h2.2.symm
  · intro hreq hadd hupd
    exact form_submit_noop params ALL_FORMS hreq hadd hupd

/-- Witness for C9 at a concrete valid submission without either flag. -/
theorem form_submit_frame_witness :
    form_submit (PyDict.ofList
        [("client_first_name", .vStr "Ana"), ("client_last_name", .vStr "Bell"),
         ("investment_types", .vStr "stocks"), ("risk_profile", .vStr "low")])
      [] = .ok (success200, []) :=
  (form_submit_frame (PyDict.ofList
      [("client_first_name", .vStr "Ana"), ("client_last_name", .vStr "Bell"),
       ("investment_types", .vStr "stocks"), ("risk_profile", .vStr "low")])
    []).2 rfl rfl rfl

/-- C10: `GET /all_forms` returns the stored list whenever it is
non-empty, and returns a single placeholder record with all four fields
null when nothing has been stored — so the empty state produces exactly
the same response as a state holding that single all-null record. -/
theorem all_forms_empty_placeholder (ALL_FORMS : List PyDict) :
    (ALL_FORMS ≠ [] → all_forms ALL_FORMS = ALL_FORMS) ∧
    all_forms [] = [emptyFormRecord] ∧
    all_forms [] = all_forms [emptyFormRecord] ∧
    emptyFormRecord.getD "client_first_name" = .vNone ∧
    emptyFormRecord.getD "client_last_name" = .vNone ∧
    emptyFormRecord.getD "investment_types" = .vNone ∧
    emptyFormRecord.getD "risk_profile" = .vNone := by
  refine ⟨?_, rfl, rfl, rfl, rfl, rfl, rfl⟩
  intro h
  cases ALL_FORMS with
  | nil => exact absurd rfl h
  | cons a l => rfl

/-- Witness for C10 at the one-record state. -/
theorem all_forms_empty_placeholder_witness :
    all_forms [emptyFormRecord] = [emptyFormRecord] :=
  (all_forms_empty_placeholder [emptyFormRecord]).1 (by simp)

/-- C4 counterexample: a submission with all four required fields truthy
and a truthy `add_record`, whose `investment_types` is a list containing
a non-string, makes `",".join` raise `TypeError` — the request fails
with an unhandled exception (a 500), not with the claimed 200
`{"success": true}`. -/
theorem form_submit_status_counterexample :
    requiredFieldsOk (PyDict.ofList
        [("client_first_name", .vStr "Ana"), ("client_last_name", .vStr "Bell"),
         ("investment_types", .vList (.cons (.vInt 1) .nil)),
         ("risk_profile", .vStr "medium"), ("add_record", .vBool true)]) = true ∧
    form_submit (PyDict.ofList
        [("client_first_name", .vStr "Ana"), ("client_last_name", .vStr "Bell"),
         ("investment_types", .vList (.cons (.vInt 1) .nil)),
         ("risk_profile", .vStr "medium"), ("add_record", .vBool true)])
      [] = .error "TypeError: sequence item: expected str instance" :=
  ⟨rfl, rfl⟩

/-- C4 (amended): whenever `form_submit` returns a response (rather than
raising an exception, which a non-string list element can provoke), the
response has status 400 with an error object exactly when a required
field is missing or falsy, and is 200 `{"success": true}` in every other
case. -/
theorem form_submit_status (params : PyDict) (ALL_FORMS : List PyDict)
    (r : JSONResponse) (forms2 : List PyDict)
    (h : form_submit params ALL_FORMS = .ok (r, forms2)) :
    (r.status_code = 400 ↔ requiredFieldsOk params = false) ∧
    (requiredFieldsOk params = false → r.content.containsKey "error" = true) ∧
    (requiredFieldsOk params = true → r = success200) := by
  by_cases hreq : requiredFieldsOk params = true
  · have hr := (form_submit_ok_success params ALL_FORMS r forms2 h hreq).1
    refine ⟨?_, ?_, fun _ => hr⟩
    · rw [hr, hreq]
      simp [success200]
    · intro hf
      rw [hreq] at hf
      cases hf
  · simp only [Bool.not_eq_true] at hreq
    cases form_submit_invalid params ALL_FORMS hreq with
    | inl he =>
      have h2 := he.symm.trans h
      simp only [Except.ok.injEq, Prod.mk.injEq] at h2
      obtain ⟨hr, -⟩ := h2
      rw [← hr, hreq]
      refine ⟨by simp [nameError400], fun _ => rfl, ?_⟩
      intro ht
      cases ht
    | inr he =>
      have h2 := he.symm.trans h
      simp only [Except.ok.injEq, Prod.mk.injEq] at h2
      obtain ⟨hr, -⟩ := h2
      rw [← hr, hreq]
      refine ⟨by simp [investError400], fun _ => rfl, ?_⟩
      intro ht
      cases ht

/-- Witness for C4 (amended) at a submission with a missing last name. -/
theorem form_submit_status_witness :
    (nameError400.status_code = 400 ↔
      requiredFieldsOk (PyDict.ofList [("client_first_name", .vStr "Ana")]) = false) ∧
    (requiredFieldsOk (PyDict.ofList [("client_first_name", .vStr "Ana")]) = false →
      nameError400.content.containsKey "error" = true) ∧
    (requiredFieldsOk (PyDict.ofList [("client_first_name", .vStr "Ana")]) = true →
      nameError400 = success200) :=
  form_submit_status (PyDict.ofList [("client_first_name", .vStr "Ana")])
    [] nameError400 [] rfl

/-- C5 counterexample: a submission with a truthy `update_record` and all
required fields, but whose truthy `add_record` carries a list field with
a non-string element, raises `TypeError` before the scan: no record is
merged even though a stored record matches both names, so the claimed
unconditional scan-and-merge fails at this input. -/
theorem form_submit_update_counterexample :
    truthy ((PyDict.ofList
        [("client_first_name", .vStr "Ana"), ("client_last_name", .vStr "Bell"),
         ("investment_types", .vList (.cons (.vInt 1) .nil)),
         ("risk_profile", .vStr "medium"), ("add_record", .vBool true),
         ("update_record", .vBool true)]).getD "update_record") = true ∧
    requiredFieldsOk (PyDict.ofList
        [("client_first_name", .vStr "Ana"), ("client_last_name", .vStr "Bell"),
         ("investment_types", .vList (.cons (.vInt 1) .nil)),
         ("risk_profile", .vStr "medium"), ("add_record", .vBool true),
         ("update_record", .vBool true)]) = true ∧
    form_submit (PyDict.ofList
        [("client_first_name", .vStr "Ana"), ("client_last_name", .vStr "Bell"),
         ("investment_types", .vList (.cons (.vInt 1) .nil)),
         ("risk_profile", .vStr "medium"), ("add_record", .vBool true),
         ("update_record", .vBool true)])
      [PyDict.ofList
        [("client_first_name", .vStr "Ana"), ("client_last_name", .vStr "Bell"),
         ("investment_types", .vStr "old"), ("risk_profile", .vStr "low")]] =
      .error "TypeError: sequence item: expected str instance" :=
  ⟨rfl, rfl, rfl⟩

/-- C5 (amended): whenever a call to `form_submit` with a truthy
`update_record` and all required fields returns successfully, the
returned list is the result of a linear scan (`mapE` of `updateOne`)
over the stored list — extended by at most one appended record when
`add_record` was also truthy — where `params` (after both flags are
popped) is merged into exactly the records whose `client_first_name`
and `client_last_name` both equal the submitted values, and every other
record is returned unchanged. -/
theorem form_submit_update_scan (params : PyDict) (ALL_FORMS : List PyDict)
    (r : JSONResponse) (forms2 : List PyDict)
    (h : form_submit params ALL_FORMS = .ok (r, forms2))
    (hreq : requiredFieldsOk params = true)
    (hupd : truthy (params.getD "update_record") = true) :
    ∃ forms1,
      (forms1 = ALL_FORMS ∨ ∃ nr, forms1 = ALL_FORMS ++ [nr]) ∧
      mapE (updateOne ((params.popD "add_record").2.popD "update_record").2)
          forms1 = .ok forms2 ∧
      forms2.length = forms1.length ∧
      (∀ (i : Nat) (rec out : PyDict), forms1[i]? = some rec → forms2[i]? = some out →
         updateOne ((params.popD "add_record").2.popD "update_record").2
           rec = .ok out) ∧
      (∀ rec,
         rec.get "client_first_name" =
           some (((params.popD "add_record").2.popD
             "update_record").2.getD "client_first_name") →
         rec.get "client_last_name" =
           some (((params.popD "add_record").2.popD
             "update_record").2.getD "client_last_name") →
         updateOne ((params.popD "add_record").2.popD "update_record").2 rec =
           .ok (rec.update ((params.popD "add_record").2.popD
             "update_record").2)) ∧
      (∀ rec out,
         updateOne ((params.popD "add_record").2.popD "update_record").2
           rec = .ok out →
         ¬(rec.get "client_first_name" =
             some (((params.popD "add_record").2.popD
               "update_record").2.getD "client_first_name") ∧
           rec.get "client_last_name" =
             some (((params.popD "add_record").2.popD
               "update_record").2.getD "client_last_name")) →
         out = rec) := by
  obtain ⟨-, forms1, hadd, hupd2⟩ :=
    form_submit_ok_success params ALL_FORMS r forms2 h hreq
  cases hupd2 with
  | inl hfalse => rw [hupd] at hfalse; cases hfalse.1
  | inr hok =>
    obtain ⟨-, hm⟩ := hok
    refine ⟨forms1, ?_, hm, mapE_ok_length _ _ _ hm, ?_, ?_, ?_⟩
    · cases hadd with
      | inl hl => exact .inl hl.2
      | inr hr2 =>
        obtain ⟨-, nr, -, hf⟩ := hr2
        exact .inr ⟨nr, hf⟩
    · intro i rec out hrec hout
      obtain ⟨x, hx, hfx⟩ := mapE_ok_get _ _ _ hm i out hout
      rw [hx] at hrec
      cases hrec
      exact hfx
    · intro rec h1 h2
      exact updateOne_match _ _ h1 h2
    · intro rec out hone hn
      exact updateOne_ok_nomatch _ _ _ hone hn

/-- Witness for C5 (amended): a concrete successful update merging the
submitted fields into the one matching record and leaving the other
record unchanged. -/
theorem form_submit_update_scan_witness :
    ∃ forms1,
      (forms1 =
         [PyDict.ofList
           [("client_first_name", .vStr "Ana"), ("client_last_name", .vStr "Bell"),
            ("investment_types", .vStr "old"), ("risk_profile", .vStr "high")],
          PyDict.ofList
           [("client_first_name", .vStr "Zoe"), ("client_last_name", .vStr "Q"),
            ("investment_types", .vStr "x"), ("risk_profile", .vStr "y")]] ∨
       ∃ nr, forms1 =
         [PyDict.ofList
           [("client_first_name", .vStr "Ana"), ("client_last_name", .vStr "Bell"),
            ("investment_types", .vStr "old"), ("risk_profile", .vStr "high")],
          PyDict.ofList
           [("client_first_name", .vStr "Zoe"), ("client_last_name", .vStr "Q"),
            ("investment_types", .vStr "x"), ("risk_profile", .vStr "y")]] ++ [nr]) ∧
      mapE (updateOne (PyDict.ofList
          [("client_first_name", .vStr "Ana"), ("client_last_name", .vStr "Bell"),
           ("investment_types", .vStr "stocks"), ("risk_profile", .vStr "low")]))
        forms1 =
        .ok [PyDict.ofList
              [("client_first_name", .vStr "Ana"), ("client_last_name", .vStr "Bell"),
               ("investment_types", .vStr "stocks"), ("risk_profile", .vStr "low")],
             PyDict.ofList
              [("client_first_name", .vStr "Zoe"), ("client_last_name", .vStr "Q"),
               ("investment_types", .vStr "x"), ("risk_profile", .vStr "y")]] ∧
      ([PyDict.ofList
          [("client_first_name", .vStr "Ana"), ("client_last_name", .vStr "Bell"),
           ("investment_types", .vStr "stocks"), ("risk_profile", .vStr "low")],
        PyDict.ofList
          [("client_first_name", .vStr "Zoe"), ("client_last_name", .vStr "Q"),
           ("investment_types", .vStr "x"), ("risk_profile", .vStr "y")]] :
        List PyDict).length = forms1.length ∧
      (∀ (i : Nat) (rec out : PyDict), forms1[i]? = some rec →
         ([PyDict.ofList
             [("client_first_name", .vStr "Ana"), ("client_last_name", .vStr "Bell"),
              ("investment_types", .vStr "stocks"), ("risk_profile", .vStr "low")],
           PyDict.ofList
             [("client_first_name", .vStr "Zoe"), ("client_last_name", .vStr "Q"),
              ("investment_types", .vStr "x"), ("risk_profile", .vStr "y")]] :
           List PyDict)[i]? = some out →
         updateOne (PyDict.ofList
             [("client_first_name", .vStr "Ana"), ("client_last_name", .vStr "Bell"),
              ("investment_types", .vStr "stocks"), ("risk_profile", .vStr "low")])
           rec = .ok out) ∧
      (∀ rec : PyDict,
         rec.get "client_first_name" = some (.vStr "Ana") →
         rec.get "client_last_name" = some (.vStr "Bell") →
         updateOne (PyDict.ofList
             [("client_first_name", .vStr "Ana"), ("client_last_name", .vStr "Bell"),
              ("investment_types", .vStr "stocks"), ("risk_profile", .vStr "low")])
           rec =
           .ok (rec.update (PyDict.ofList
             [("client_first_name", .vStr "Ana"), ("client_last_name", .vStr "Bell"),
              ("investment_types", .vStr "stocks"), ("risk_profile", .vStr "low")]))) ∧
      (∀ rec out : PyDict,
         updateOne (PyDict.ofList
             [("client_first_name", .vStr "Ana"), ("client_last_name", .vStr "Bell"),
              ("investment_types", .vStr "stocks"), ("risk_profile", .vStr "low")])
           rec = .ok out →
         ¬(rec.get "client_first_name" = some (.vStr "Ana") ∧
           rec.get "client_last_name" = some (.vStr "Bell")) →
         out = rec) :=
  form_submit_update_scan
    (PyDict.ofList
      [("client_first_name", .vStr "Ana"), ("client_last_name", .vStr "Bell"),
       ("investment_types", .vStr "stocks"), ("risk_profile", .vStr "low"),
       ("update_record", .vBool true)])
    [PyDict.ofList
      [("client_first_name", .vStr "Ana"), ("client_last_name", .vStr "Bell"),
       ("investment_types", .vStr "old"), ("risk_profile", .vStr "high")],
     PyDict.ofList
      [("client_first_name", .vStr "Zoe"), ("client_last_name", .vStr "Q"),
       ("investment_types", .vStr "x"), ("risk_profile", .vStr "y")]]
    success200
    [PyDict.ofList
      [("client_first_name", .vStr "Ana"), ("client_last_name", .vStr "Bell"),
       ("investment_types", .vStr "stocks"), ("risk_profile", .vStr "low")],
     PyDict.ofList
      [("client_first_name", .vStr "Zoe"), ("client_last_name", .vStr "Q"),
       ("investment_types", .vStr "x"), ("risk_profile", .vStr "y")]]
    rfl rfl rfl

theorem strOfElems_ofStrs (ss : List String) :
    strOfElems (PyList.ofList (ss.map PyVal.vStr)) = .ok ss := by
  induction ss with
  | nil => rfl
  | cons s rest ih => simp [PyList.ofList, strOfElems, ih, Except.map]

/-- C6 counterexample: a submission with a truthy `add_record` and all
required fields whose truthy `update_record` matches a previously stored
record: the old record's contents are overwritten by the update scan in
the same call, so "all previously stored records keep their contents"
fails at this input. -/
theorem form_submit_add_counterexample :
    truthy ((PyDict.ofList
        [("client_first_name", .vStr "A"), ("client_last_name", .vStr "B"),
         ("investment_types", .vStr "new"), ("risk_profile", .vStr "low"),
         ("add_record", .vBool true), ("update_record", .vBool true)]).getD
        "add_record") = true ∧
    requiredFieldsOk (PyDict.ofList
        [("client_first_name", .vStr "A"), ("client_last_name", .vStr "B"),
         ("investment_types", .vStr "new"), ("risk_profile", .vStr "low"),
         ("add_record", .vBool true), ("update_record", .vBool true)]) = true ∧
    form_submit (PyDict.ofList
        [("client_first_name", .vStr "A"), ("client_last_name", .vStr "B"),
         ("investment_types", .vStr "new"), ("risk_profile", .vStr "low"),
         ("add_record", .vBool true), ("update_record", .vBool true)])
      [PyDict.ofList
        [("client_first_name", .vStr "A"), ("client_last_name", .vStr "B"),
         ("investment_types", .vStr "old"), ("risk_profile", .vStr "low")]] =
      .ok (success200,
        [PyDict.ofList
          [("client_first_name", .vStr "A"), ("client_last_name", .vStr "B"),
           ("investment_types", .vStr "new"), ("risk_profile", .vStr "low")],
         PyDict.ofList
          [("client_first_name", .vStr "A"), ("client_last_name", .vStr "B"),
           ("investment_types", .vStr "new"), ("risk_profile", .vStr "low"),
           ("update_record", .vBool true)]]) ∧
    PyDict.ofList
        [("client_first_name", .vStr "A"), ("client_last_name", .vStr "B"),
         ("investment_types", .vStr "new"), ("risk_profile", .vStr "low")] ≠
      PyDict.ofList
        [("client_first_name", .vStr "A"), ("client_last_name", .vStr "B"),
         ("investment_types", .vStr "old"), ("risk_profile", .vStr "low")] :=
  ⟨rfl, rfl, rfl, by decide⟩

/-- C6 (amended): whenever a call to `form_submit` with a truthy
`add_record`, all required fields and no truthy `update_record` returns
successfully, exactly one record is appended at the end of the stored
list, equal to the submitted params with the `add_record` key removed
and with every list-valued field replaced by the comma-separated join of
its (string) elements; all previously stored records keep their position
and contents, and the appended record keeps the keys of the submitted
params in order. -/
theorem form_submit_add_appends (params : PyDict) (ALL_FORMS : List PyDict)
    (r : JSONResponse) (forms2 : List PyDict)
    (h : form_submit params ALL_FORMS = .ok (r, forms2))
    (hreq : requiredFieldsOk params = true)
    (hadd : truthy (params.getD "add_record") = true)
    (hupd : truthy (params.getD "update_record") = false) :
    ∃ nr, joinedRecord (params.popD "add_record").2 = .ok nr ∧
      forms2 = ALL_FORMS ++ [nr] ∧
      nr.keys = (params.popD "add_record").2.keys ∧
      (∀ k v, (params.popD "add_record").2.get k = some v →
         ∃ v2, joinIfList v = .ok v2 ∧ nr.get k = some v2) ∧
      (∀ s, joinIfList (.vStr s) = .ok (.vStr s)) ∧
      (∀ b, joinIfList (.vBool b) = .ok (.vBool b)) ∧
      (∀ ss, joinIfList (.vList (PyList.ofList (ss.map PyVal.vStr))) =
         .ok (.vStr (String.intercalate "," ss))) := by
  obtain ⟨-, forms1, haddc, hupdc⟩ :=
    form_submit_ok_success params ALL_FORMS r forms2 h hreq
  cases haddc with
  | inl hfalse => rw [hadd] at hfalse; cases hfalse.1
  | inr hok =>
    obtain ⟨-, nr, hj, hf⟩ := hok
    cases hupdc with
    | inr htrue => rw [hupd] at htrue; cases htrue.1
    | inl hupdok =>
      refine ⟨nr, hj, hupdok.2.trans hf, joinedRecord_keys _ _ hj,
        fun k v hv => joinedRecord_get_some _ _ hj k v hv,
        fun s => rfl, fun b => rfl, fun ss => ?_⟩
      simp [joinIfList, strOfElems_ofStrs, Except.map]

/-- Witness for C6 (amended): a concrete successful addition joining a
list of strings and preserving the previously stored record. -/
theorem form_submit_add_appends_witness :
    ∃ nr, joinedRecord (PyDict.ofList
        [("client_first_name", .vStr "Ana"), ("client_last_name", .vStr "Bell"),
         ("investment_types",
            .vList (.cons (.vStr "stocks") (.cons (.vStr "bonds") .nil))),
         ("risk_profile", .vStr "low")]) = .ok nr ∧
      ([PyDict.ofList
          [("client_first_name", .vStr "Zoe"), ("client_last_name", .vStr "Q"),
           ("investment_types", .vStr "x"), ("risk_profile", .vStr "y")],
        PyDict.ofList
          [("client_first_name", .vStr "Ana"), ("client_last_name", .vStr "Bell"),
           ("investment_types", .vStr "stocks,bonds"), ("risk_profile", .vStr "low")]] :
        List PyDict) =
        [PyDict.ofList
          [("client_first_name", .vStr "Zoe"), ("client_last_name", .vStr "Q"),
           ("investment_types", .vStr "x"), ("risk_profile", .vStr "y")]] ++ [nr] ∧
      nr.keys = (PyDict.ofList
        [("client_first_name", .vStr "Ana"), ("client_last_name", .vStr "Bell"),
         ("investment_types",
            .vList (.cons (.vStr "stocks") (.cons (.vStr "bonds") .nil))),
         ("risk_profile", .vStr "low")]).keys ∧
      (∀ k v, (PyDict.ofList
          [("client_first_name", .vStr "Ana"), ("client_last_name", .vStr "Bell"),
           ("investment_types",
              .vList (.cons (.vStr "stocks") (.cons (.vStr "bonds") .nil))),
           ("risk_profile", .vStr "low")]).get k = some v →
         ∃ v2, joinIfList v = .ok v2 ∧ nr.get k = some v2) ∧
      (∀ s, joinIfList (.vStr s) = .ok (.vStr s)) ∧
      (∀ b, joinIfList (.vBool b) = .ok (.vBool b)) ∧
      (∀ ss, joinIfList (.vList (PyList.ofList (ss.map PyVal.vStr))) =
         .ok (.vStr (String.intercalate "," ss))) :=
  form_submit_add_appends
    (PyDict.ofList
      [("client_first_name", .vStr "Ana"), ("client_last_name", .vStr "Bell"),
       ("investment_types",
          .vList (.cons (.vStr "stocks") (.cons (.vStr "bonds") .nil))),
       ("risk_profile", .vStr "low"), ("add_record", .vBool true)])
    [PyDict.ofList
      [("client_first_name", .vStr "Zoe"), ("client_last_name", .vStr "Q"),
       ("investment_types", .vStr "x"), ("risk_profile", .vStr "y")]]
    success200
    [PyDict.ofList
      [("client_first_name", .vStr "Zoe"), ("client_last_name", .vStr "Q"),
       ("investment_types", .vStr "x"), ("risk_profile", .vStr "y")],
     PyDict.ofList
      [("client_first_name", .vStr "Ana"), ("client_last_name", .vStr "Bell"),
       ("investment_types", .vStr "stocks,bonds"), ("risk_profile", .vStr "low")]]
    rfl rfl rfl rfl

/-- C7: for every non-empty list of requested filenames, both
`GET /whitepapers/url` and `GET /whitepapers/base64` return a list of
the same length as the request, in request order; the i-th element is a
pdf data object — `DataUrl` with the stored url, or `DataContent` with
the file's base64 encoding when the file exists — when the i-th
filename names a known whitepaper, and otherwise (unknown whitepaper,
or missing file for the base64 variant) a `DataError` whose
`error_type` is `"not_found"`; an unknown filename never makes the
whole request fail. -/
theorem whitepapers_per_request_order (filename : List String)
    (hne : filename ≠ []) (fs : String → Option (List Nat)) :
    (get_whitepapers_url filename).length = filename.length ∧
    (get_whitepapers_base64 fs filename).length = filename.length ∧
    (∀ (i : Nat) (name : String), filename[i]? = some name →
       ((∀ wp, wpGet whitepapers name = some wp →
           (get_whitepapers_url filename)[i]? =
             some (dataUrlDump (wp.getD "url") (wp.getD "filename")) ∧
           (∀ bytes, fs name = some bytes →
              (get_whitepapers_base64 fs filename)[i]? =
                some (dataContentDump (String.mk (base64Encode bytes))
                  (wp.getD "filename"))) ∧
           (fs name = none →
              (get_whitepapers_base64 fs filename)[i]? =
                some (dataErrorDump "File not found"))) ∧
        (wpGet whitepapers name = none →
           (get_whitepapers_url filename)[i]? =
             some (dataErrorDump (wpNotFoundMsg name)) ∧
           (get_whitepapers_base64 fs filename)[i]? =
             some (dataErrorDump (wpNotFoundMsg name))))) ∧
    (∀ msg, (dataErrorDump msg).get "error_type" = some (.vStr "not_found")) := by
  refine ⟨List.length_map .., List.length_map .., ?_, fun msg => rfl⟩
  intro i name hname
  constructor
  · intro wp hwp
    obtain ⟨hemp, hurl, hfn, hsv⟩ := wpGet_whitepapers_spec name wp hwp
    refine ⟨?_, ?_, ?_⟩
    · simp only [get_whitepapers_url, List.getElem?_map, hname, Option.map_some]
      simp [hwp, hemp, hurl]
    · intro bytes hb
      simp only [get_whitepapers_base64, List.getElem?_map, hname, Option.map_some]
      simp [hwp, hemp, hsv, hb]
    · intro hb
      simp only [get_whitepapers_base64, List.getElem?_map, hname, Option.map_some]
      simp [hwp, hemp, hsv, hb]
  · intro hwp
    constructor
    · simp only [get_whitepapers_url, List.getElem?_map, hname, Option.map_some]
      simp [hwp]
    · simp only [get_whitepapers_base64, List.getElem?_map, hname, Option.map_some]
      simp [hwp]

/-- Witness for C7 at a two-element request with one known and one
unknown whitepaper, over a filesystem holding the bytes of "Man"
(base64 `TWFu`) for `bitcoin.pdf`. -/
theorem whitepapers_per_request_order_witness :
    (get_whitepapers_url ["bitcoin.pdf", "missing.pdf"]).length = 2 ∧
    (get_whitepapers_base64
        (fun n => if n = "bitcoin.pdf" then some [77, 97, 110] else none)
        ["bitcoin.pdf", "missing.pdf"]).length = 2 ∧
    (get_whitepapers_url ["bitcoin.pdf", "missing.pdf"])[0]? =
      some (dataUrlDump
        (.vStr "https://openbb-assets.s3.us-east-1.amazonaws.com/testing/bitcoin.pdf")
        (.vStr "bitcoin.pdf")) ∧
    (get_whitepapers_base64
        (fun n => if n = "bitcoin.pdf" then some [77, 97, 110] else none)
        ["bitcoin.pdf", "missing.pdf"])[0]? =
      some (dataContentDump "TWFu" (.vStr "bitcoin.pdf")) ∧
    (get_whitepapers_url ["bitcoin.pdf", "missing.pdf"])[1]? =
      some (dataErrorDump (wpNotFoundMsg "missing.pdf")) ∧
    (get_whitepapers_base64
        (fun n => if n = "bitcoin.pdf" then some [77, 97, 110] else none)
        ["bitcoin.pdf", "missing.pdf"])[1]? =
      some (dataErrorDump (wpNotFoundMsg "missing.pdf")) :=
  ⟨(whitepapers_per_request_order ["bitcoin.pdf", "missing.pdf"] (by simp)
      (fun n => if n = "bitcoin.pdf" then some [77, 97, 110] else none)).1,
   (whitepapers_per_request_order ["bitcoin.pdf", "missing.pdf"] (by simp)
      (fun n => if n = "bitcoin.pdf" then some [77, 97, 110] else none)).2.1,
   (((whitepapers_per_request_order ["bitcoin.pdf", "missing.pdf"] (by simp)
      (fun n => if n = "bitcoin.pdf" then some [77, 97, 110] else none)).2.2.1
      0 "bitcoin.pdf" rfl).1 _ rfl).1,
   (((whitepapers_per_request_order ["bitcoin.pdf", "missing.pdf"] (by simp)
      (fun n => if n = "bitcoin.pdf" then some [77, 97, 110] else none)).2.2.1
      0 "bitcoin.pdf" rfl).1 _ rfl).2.1 [77, 97, 110] rfl,
   (((whitepapers_per_request_order ["bitcoin.pdf", "missing.pdf"] (by simp)
      (fun n => if n = "bitcoin.pdf" then some [77, 97, 110] else none)).2.2.1
      1 "missing.pdf" rfl).2 rfl).1,
   (((whitepapers_per_request_order ["bitcoin.pdf", "missing.pdf"] (by simp)
      (fun n => if n = "bitcoin.pdf" then some [77, 97, 110] else none)).2.2.1
      1 "missing.pdf" rfl).2 rfl).2⟩
